import Mathlib

/-!
Shallow embedding of `ArborAI_File_Search_Engine.py` (repository Apple-AI).

Filesystem reads are modelled by explicit data: a directory entry carries the
results that `os.path.getsize` and `os.path.getmtime` would return for its
path (`none` models the call raising an exception), and `time.time()` is an
explicit `now` parameter.  The Python code compares `size / 1024` (a float)
against `1024`; division by a power of two is exact in binary floating point,
so the comparison is embedded as the integer comparison against `1048576`
bytes.  Interactive `input` values are explicit string parameters, and what
the program prints is modelled by outcome datatypes whose constructors are
documented with the message each branch prints.
-/

namespace ArborAI

/-- Lowercasing, modelling Python's `str.lower` (character by character; like
`Char.toLower` this only maps the ASCII range, which covers every use in the
claims). -/
def pyLower (s : String) : String :=
  String.mk (s.toList.map Char.toLower)

/-- Suffix test, modelling Python's `str.endswith`. -/
def strEndsWith (s pat : String) : Bool :=
  pat.toList.isSuffixOf s.toList

/-- Whitespace stripping at both ends, modelling Python's `str.strip()`. -/
def pyStrip (s : String) : String :=
  String.mk
    (((s.toList.dropWhile Char.isWhitespace).reverse.dropWhile
        Char.isWhitespace).reverse)

/-- Boolean substring test, modelling Python's `pat in s` on strings. -/
def strContainsSub (s pat : String) : Bool :=
  s.toList.tails.any (fun t => pat.toList.isPrefixOf t)

/-- Mirrors the `FilterCriteria` class: one flag per filter plus the two
optional keyword strings (`None` in Python is `none` here; the empty string is
a distinct, falsy value). -/
structure FilterCriteria where
  only_files : Bool
  only_dirs : Bool
  only_jar : Bool
  only_json : Bool
  size_less_than_1mb : Bool
  size_more_than_1mb : Bool
  exclude_keyword : Option String
  include_keyword : Option String
  modified_last_24h : Bool
  modified_over_24h : Bool
  show_tree : Bool
deriving DecidableEq

/-- Mirrors `FilterCriteria.__init__`: every flag off, no keywords. -/
def FilterCriteria.init : FilterCriteria :=
  { only_files := false
    only_dirs := false
    only_jar := false
    only_json := false
    size_less_than_1mb := false
    size_more_than_1mb := false
    exclude_keyword := none
    include_keyword := none
    modified_last_24h := false
    modified_over_24h := false
    show_tree := false }

/-- Mirrors `FilterCriteria.should_include(entry_name, entry_path, is_dir)`.
`size` and `mtime` are the results of `os.path.getsize(entry_path)` and
`os.path.getmtime(entry_path)` (`none` when the call raises), `now` is
`time.time()`.  Each `if` corresponds to one early `return False` of the
Python method, in source order. -/
def FilterCriteria.should_include (c : FilterCriteria) (entry_name : String)
    (size : Option Nat) (mtime : Option Int) (is_dir : Bool) (now : Int) : Bool :=
  -- Filter 1: only files
  if c.only_files && is_dir then false
  -- Filter 2: only directories
  else if c.only_dirs && !is_dir then false
  -- a directory skips the remaining file-specific filters
  else if is_dir then true
  -- Filter 3: only JAR files
  else if c.only_jar && !(strEndsWith (pyLower entry_name) ".jar") then false
  -- Filter 4: only JSON files
  else if c.only_json && !(strEndsWith (pyLower entry_name) ".json") then false
  -- Filters 5 and 6: size; a failing getsize skips both checks (fail-open)
  else if (match size with
           | some s => (c.size_less_than_1mb && decide (1048576 ≤ s)) ||
                       (c.size_more_than_1mb && decide (s < 1048576))
           | none => false) then false
  -- Filter 7: exclude keyword (Python truthiness: None and "" both skip)
  else if (match c.exclude_keyword with
           | some k =>
             !k.toList.isEmpty && strContainsSub (pyLower entry_name) (pyLower k)
           | none => false) then false
  -- Filter 8: include keyword
  else if (match c.include_keyword with
           | some k =>
             !k.toList.isEmpty && !strContainsSub (pyLower entry_name) (pyLower k)
           | none => false) then false
  -- Filter 9: modified in the last 24 hours; a failing getmtime excludes
  else if c.modified_last_24h &&
          (match mtime with
           | some m => decide (now - m > 86400)
           | none => true) then false
  -- Filter 10: modified over 24 hours ago; a failing getmtime excludes
  else if c.modified_over_24h &&
          (match mtime with
           | some m => decide (now - m ≤ 86400)
           | none => true) then false
  else true

/-- Model of one entry of a directory listing: its name, whether
`os.path.isdir` holds, and the stat results for its full path. -/
structure Entry where
  name : String
  is_dir : Bool
  size : Option Nat
  mtime : Option Int
deriving DecidableEq

/-- Mirrors the per-entry dict `{"Name": ..., "Type": ..., "Size": ...}` built
by `collect_files`.  The field `EType` models the `"Type"` key (the identifier
`Type` is reserved in Lean). -/
structure EntryRec where
  Name : String
  EType : String
  Size : String
deriving DecidableEq

/-- Renders `num / den` (with `den` a power of two) rounded half-to-even to
two decimals, matching Python's `f"{num/den:.2f}"` whenever the float quotient
is exact (it is, for any realistic file size, since `den` is a power of two). -/
def format2dec (num den : Nat) : String :=
  let scaled := num * 100
  let q := scaled / den
  let r := scaled % den
  let h :=
    if den < 2 * r then q + 1
    else if 2 * r < den then q
    else if q % 2 = 0 then q else q + 1
  toString (h / 100) ++ "." ++
    (if h % 100 < 10 then "0" ++ toString (h % 100) else toString (h % 100))

/-- Mirrors the size-string computation inside `collect_files`'s loop:
`"0 bytes"` for directories, `"Unknown"` when `getsize` raises, otherwise a
two-decimal KB or MB string with the KB/MB switch at 1024 KB. -/
def size_str (is_dir : Bool) (size : Option Nat) : String :=
  if is_dir then "0 bytes"
  else
    match size with
    | none => "Unknown"
    | some s =>
      if s < 1048576 then format2dec s 1024 ++ " KB"
      else format2dec s 1048576 ++ " MB"

/-- Builds the record appended to `data` for one entry that passed the
filters. -/
def entry_record (e : Entry) : EntryRec :=
  { Name := e.name
    EType := if e.is_dir then "Directory" else "File"
    Size := size_str e.is_dir e.size }

/-- Mirrors `criteria and not criteria.should_include(...)` being false, i.e.
the entry is kept: with no criteria every entry is kept. -/
def passes (criteria : Option FilterCriteria) (now : Int) (e : Entry) : Bool :=
  match criteria with
  | some c => c.should_include e.name e.size e.mtime e.is_dir now
  | none => true

/-- Model of the state of the path handed to `collect_files` / `choice_4`:
the path does not exist, is a plain file, or is a directory whose
`os.listdir` either raises (`none`, e.g. `PermissionError`) or returns a
listing. -/
inductive FsTarget where
  | absent
  | plainFile
  | directory (listing : Option (List Entry))
deriving DecidableEq

/-- Mirrors `collect_files(path, criteria)`.  Returns `none` where the Python
function returns `None` (missing path, plain file, or a listing error) and
`some data` where it returns a list.  In tree-display mode the function prints
a tree and returns the empty list before ever calling `os.listdir`. -/
def collect_files (t : FsTarget) (criteria : Option FilterCriteria) (now : Int) :
    Option (List EntryRec) :=
  match t with
  | .absent => none
  | .plainFile => none
  | .directory listing =>
    if (match criteria with | some c => c.show_tree | none => false) then
      some []
    else
      match listing with
      | none => none
      | some entries => some ((entries.filter (passes criteria now)).map entry_record)

/-- Names of the entries of a listing that pass the filters, in listing
order. -/
def matched_names (entries : List Entry) (c : FilterCriteria) (now : Int) :
    List String :=
  (entries.filter (passes (some c) now)).map Entry.name

/-- Outcome of `choice_1`'s dispatch on the result of `collect_files`:
`silentReturn` models `if data is None: return` (no further message from
`choice_1` itself), `noFilesMessage` models printing
"No files collected (filters may have excluded everything)." and returning,
and `proceedToStore` models continuing to the JSON-storage prompts. -/
inductive Choice1Outcome where
  | silentReturn
  | noFilesMessage
  | proceedToStore (data : List EntryRec)
deriving DecidableEq

/-- Mirrors the two early-return tests at the top of `choice_1`. -/
def choice_1_dispatch : Option (List EntryRec) → Choice1Outcome
  | none => .silentReturn
  | some data => if data.length = 0 then .noFilesMessage else .proceedToStore data

/-- Mirrors `choice_4`'s guard `if not data or len(data) == 0` on the result
of `collect_files`: the branch that prints
"No files match filters. Nothing to delete." is taken exactly when this is
true.  (In Python `not None` and `not []` are both `True`.) -/
def choice_4_no_match (res : Option (List EntryRec)) : Bool :=
  match res with
  | none => true
  | some data => decide (data.length = 0)

/-- Mirrors the deletion loop of `choice_4`: for each collected name, in
order, `os.path.isfile` is consulted (`isFileAt`) and, when it holds,
`os.remove` is attempted (`removeOk` tells whether it succeeds).  Returns the
final `deleted` counter, the names actually removed, and the names whose
removal raised (each reported with an error message, the loop continuing). -/
def choice_4_delete_loop (isFileAt removeOk : String → Bool) :
    List String → Nat × List String × List String
  | [] => (0, [], [])
  | n :: rest =>
    let r := choice_4_delete_loop isFileAt removeOk rest
    if isFileAt n then
      if removeOk n then (r.1 + 1, n :: r.2.1, r.2.2)
      else (r.1, r.2.1, n :: r.2.2)
    else r

/-- Data printed by the filtered-delete branch of `choice_4` when it runs the
deletion loop: the listed names, the final `deleted` counter and the total
used in the closing message "Deleted {deleted}/{len(data)} file(s)", and the
removed and failed names. -/
structure Choice4Report where
  listed : List String
  deletedCount : Nat
  total : Nat
  removed : List String
  failed : List String
deriving DecidableEq

/-- Outcome of the filtered-delete branch of `choice_4` on a directory
target: `noMatch` prints "No files match filters. Nothing to delete." and
returns; `cancelled` models a confirmation answer other than "yes" (the list
was printed, nothing is removed); `deleted` models a confirmed batch
deletion. -/
inductive Choice4Outcome where
  | noMatch
  | cancelled (listed : List String)
  | deleted (r : Choice4Report)
deriving DecidableEq

/-- Mirrors the `os.path.isdir(target)` branch of `choice_4` when `criteria`
is active: collect with filters, bail out when `choice_4_no_match`, otherwise
list the names, ask for confirmation (`confirm` is the raw answer, lowercased
before comparing with "yes"), and on confirmation run the deletion loop. -/
def choice_4_filtered (t : FsTarget) (c : FilterCriteria) (now : Int)
    (confirm : String) (isFileAt removeOk : String → Bool) : Choice4Outcome :=
  let res := collect_files t (some c) now
  if choice_4_no_match res then .noMatch
  else
    match res with
    | none => .noMatch
    | some data =>
      let names := data.map (fun d => d.Name)
      if pyLower confirm = "yes" then
        let r := choice_4_delete_loop isFileAt removeOk names
        .deleted
          { listed := names
            deletedCount := r.1
            total := data.length
            removed := r.2.1
            failed := r.2.2 }
      else .cancelled names

/-- Outcome of `choice_3`: `sourceMissing` prints "Error: Source path does not
exist."; `moveCancelled` prints "Move cancelled." and returns before
`shutil.move` is invoked; `moved` / `moveError` model `shutil.move`
succeeding / raising. -/
inductive Choice3Outcome where
  | sourceMissing
  | moveCancelled
  | moved
  | moveError
deriving DecidableEq

/-- Mirrors `choice_3` over an abstract filesystem state `σ`: `doMove`
models `shutil.move` (new state plus a success flag); the secondary
confirmation for directories compares the lowercased answer with "yes". -/
def choice_3 {σ : Type} (source_exists is_dir : Bool) (confirm : String)
    (doMove : σ → σ × Bool) (st : σ) : Choice3Outcome × σ :=
  if !source_exists then (.sourceMissing, st)
  else if is_dir && !(decide (pyLower confirm = "yes")) then (.moveCancelled, st)
  else
    let r := doMove st
    (if r.2 then .moved else .moveError, r.1)

/-- Mirrors `name.replace(".json", "")`: removes every occurrence of the
five-character pattern `.json`, scanning left to right without rescanning
replaced positions (Python `str.replace` semantics for a nonempty pattern). -/
def stripJsonExt : List Char → List Char
  | '.' :: 'j' :: 's' :: 'o' :: 'n' :: rest => stripJsonExt rest
  | c :: rest => c :: stripJsonExt rest
  | [] => []

/-- Mirrors `name.replace(".", "")`: for a single-character pattern,
Python's replace-by-empty is exactly a filter. -/
def stripDots (l : List Char) : List Char :=
  l.filter (fun ch => !(ch == '.'))

/-- Mirrors the filename computation of `choice_1`: the answer is stripped
(`input(...).strip()`), an empty answer yields `dataStore.json`, otherwise
`.json` occurrences and then all remaining dots are removed before appending
`.json`. -/
def choice_1_json_name (raw : String) : String :=
  let name := pyStrip raw
  if name = "" then "dataStore.json"
  else String.mk (stripDots (stripJsonExt name.toList)) ++ ".json"

/-- Modelled from the claim's words, for comparison with
`choice_1_json_name`: strip a final `.json` suffix (only as a suffix), then
all embedded dots, then append `.json`. -/
def json_name_per_claim (raw : String) : String :=
  let name := pyStrip raw
  if name = "" then "dataStore.json"
  else
    let base :=
      if strEndsWith name ".json" then
        String.mk (name.toList.take (name.toList.length - 5))
      else name
    String.mk (stripDots base.toList) ++ ".json"

/-- C9: for every entry (any name, stat data, and is-directory flag),
`should_include` on a freshly constructed `FilterCriteria` (no flags set,
no keywords) returns true: the empty criteria is the identity filter. -/
theorem empty_criteria_identity (name : String) (size : Option Nat)
    (mtime : Option Int) (is_dir : Bool) (now : Int) :
    FilterCriteria.init.should_include name size mtime is_dir now = true := by
  cases is_dir <;> cases size <;>
    simp [FilterCriteria.should_include, FilterCriteria.init]

/-- C3: when both the files-only flag and the directories-only flag are set in
the same `FilterCriteria`, `should_include` returns false for every entry,
file or directory. -/
theorem both_flags_exclude_all (c : FilterCriteria) (name : String)
    (size : Option Nat) (mtime : Option Int) (is_dir : Bool) (now : Int)
    (hf : c.only_files = true) (hd : c.only_dirs = true) :
    c.should_include name size mtime is_dir now = false := by
  cases is_dir <;> simp [FilterCriteria.should_include, hf, hd]

/-- Witness for C3 at a concrete criteria with both flags set, on a directory
entry and on a file entry. -/
theorem both_flags_exclude_all_witness :
    ({ FilterCriteria.init with only_files := true, only_dirs := true } :
        FilterCriteria).should_include "a.txt" none none true 0 = false ∧
    ({ FilterCriteria.init with only_files := true, only_dirs := true } :
        FilterCriteria).should_include "a.txt" none none false 0 = false :=
  ⟨both_flags_exclude_all _ _ _ _ _ _ rfl rfl,
   both_flags_exclude_all _ _ _ _ _ _ rfl rfl⟩

/-- C4: for every directory entry, provided the files-only flag is not set,
`should_include` returns true regardless of the extension, size, keyword and
modification-time settings (directories short-circuit past the file-specific
filters). -/
theorem dirs_bypass_file_filters (c : FilterCriteria) (name : String)
    (size : Option Nat) (mtime : Option Int) (now : Int)
    (hf : c.only_files = false) :
    c.should_include name size mtime true now = true := by
  simp [FilterCriteria.should_include, hf]

/-- Witness for C4: a directory named "secret.jar" passes when only the
jar-only filter is active. -/
theorem dirs_bypass_file_filters_witness :
    ({ FilterCriteria.init with only_jar := true } :
        FilterCriteria).should_include "secret.jar" none none true 0 = true :=
  dirs_bypass_file_filters _ _ _ _ _ rfl

/-- C6: with only the size-under-1MB flag set a file is included exactly when
its size is below 1024 KiB, with only the size-over-1MB flag set exactly when
its size is at least 1024 KiB; in particular the boundary value 1048576 bytes
fails "smaller than 1MB" and passes "larger than 1MB". -/
theorem size_boundary_partition (name : String) (mtime : Option Int)
    (now : Int) (s : Nat) :
    (({ FilterCriteria.init with size_less_than_1mb := true } :
        FilterCriteria).should_include name (some s) mtime false now =
      decide (s < 1048576)) ∧
    (({ FilterCriteria.init with size_more_than_1mb := true } :
        FilterCriteria).should_include name (some s) mtime false now =
      decide (1048576 ≤ s)) ∧
    ({ FilterCriteria.init with size_less_than_1mb := true } :
        FilterCriteria).should_include name (some 1048576) mtime false now =
      false ∧
    ({ FilterCriteria.init with size_more_than_1mb := true } :
        FilterCriteria).should_include name (some 1048576) mtime false now =
      true := by
  have h1 : ∀ s' : Nat,
      ({ FilterCriteria.init with size_less_than_1mb := true } :
        FilterCriteria).should_include name (some s') mtime false now =
      decide (s' < 1048576) := by
    intro s'
    rcases Nat.lt_or_ge s' 1048576 with hs | hs
    · simp [FilterCriteria.should_include, FilterCriteria.init, hs,
        Nat.not_le.mpr hs]
    · simp [FilterCriteria.should_include, FilterCriteria.init, hs,
        Nat.not_lt.mpr hs]
  have h2 : ∀ s' : Nat,
      ({ FilterCriteria.init with size_more_than_1mb := true } :
        FilterCriteria).should_include name (some s') mtime false now =
      decide (1048576 ≤ s') := by
    intro s'
    rcases Nat.lt_or_ge s' 1048576 with hs | hs
    · simp [FilterCriteria.should_include, FilterCriteria.init, hs,
        Nat.not_le.mpr hs]
    · simp [FilterCriteria.should_include, FilterCriteria.init, hs,
        Nat.not_lt.mpr hs]
  exact ⟨h1 s, h2 s, (h1 1048576).trans (by decide),
    (h2 1048576).trans (by decide)⟩

/-- C2: for a non-directory entry, a failed size read makes the result
independent of the size flags (the size filters are skipped, fail-open),
whereas when a modified-time flag is set a failed modification-time read makes
`should_include` return false (fail-closed). -/
theorem stat_failure_asymmetry (c : FilterCriteria) (name : String)
    (mtime : Option Int) (size : Option Nat) (now : Int) :
    (c.should_include name none mtime false now =
      ({ c with size_less_than_1mb := false, size_more_than_1mb := false } :
        FilterCriteria).should_include name none mtime false now) ∧
    ((c.modified_last_24h || c.modified_over_24h) = true →
      c.should_include name size none false now = false) := by
  constructor
  · rfl
  · intro h
    cases hml : c.modified_last_24h with
    | true => simp [FilterCriteria.should_include, hml]
    | false =>
      have hmo : c.modified_over_24h = true := by
        rw [hml] at h
        simpa using h
      simp [FilterCriteria.should_include, hml, hmo]

/-- Criteria with only the modified-within-24h flag set, used by the C2
witness. -/
def mtimeCriteria : FilterCriteria :=
  { FilterCriteria.init with modified_last_24h := true }

/-- Witness for C2 at a concrete criteria with the modified-within-24h flag
set: with a failed size read the size flags are irrelevant, and with a failed
modification-time read the entry is excluded. -/
theorem stat_failure_asymmetry_witness :
    mtimeCriteria.should_include "a.txt" none none false 0 =
      ({ mtimeCriteria with size_less_than_1mb := false, size_more_than_1mb := false } :
        FilterCriteria).should_include "a.txt" none none false 0 ∧
    mtimeCriteria.should_include "a.txt" (some 5) none false 0 = false :=
  ⟨(stat_failure_asymmetry mtimeCriteria "a.txt" none (some 5) 0).1,
   (stat_failure_asymmetry mtimeCriteria "a.txt" none (some 5) 0).2 (by decide)⟩

/-- C10: when the tree-display flag is set and the path is an existing
directory, `collect_files` returns the empty list regardless of the
directory's contents (even when the listing would fail); `choice_1` then takes
its "No files collected" early return, never reaching the JSON-writing code,
and its dispatch is the same as for a run whose filters excluded every
entry. -/
theorem tree_mode_collect_empty (listing : Option (List Entry))
    (c : FilterCriteria) (now : Int) (h : c.show_tree = true) :
    collect_files (.directory listing) (some c) now = some [] ∧
    choice_1_dispatch (collect_files (.directory listing) (some c) now) =
      Choice1Outcome.noFilesMessage ∧
    choice_1_dispatch (collect_files (.directory listing) (some c) now) =
      choice_1_dispatch (some []) := by
  have h1 : collect_files (.directory listing) (some c) now = some [] := by
    simp [collect_files, h]
  refine ⟨h1, ?_, ?_⟩
  · rw [h1]
    decide
  · rw [h1]

/-- Criteria with only the tree-display flag set, used by the C10 witness. -/
def treeCriteria : FilterCriteria :=
  { FilterCriteria.init with show_tree := true }

/-- Witness for C10 on a nonempty concrete listing. -/
theorem tree_mode_collect_empty_witness :
    collect_files (.directory (some [⟨"a.txt", false, some 10, some 0⟩]))
        (some treeCriteria) 0 = some [] ∧
    choice_1_dispatch
        (collect_files (.directory (some [⟨"a.txt", false, some 10, some 0⟩]))
          (some treeCriteria) 0) = Choice1Outcome.noFilesMessage ∧
    choice_1_dispatch
        (collect_files (.directory (some [⟨"a.txt", false, some 10, some 0⟩]))
          (some treeCriteria) 0) = choice_1_dispatch (some []) :=
  tree_mode_collect_empty (some [⟨"a.txt", false, some 10, some 0⟩])
    treeCriteria 0 rfl

/-- C8: when the source of `choice_3` exists and is a directory and the
secondary confirmation answer is anything other than "yes", the function
reports cancellation and the filesystem state is returned unchanged: the move
is never invoked. -/
theorem choice3_dir_cancel_frame {σ : Type} (st : σ) (doMove : σ → σ × Bool)
    (confirm : String) (h : ¬ pyLower confirm = "yes") :
    choice_3 true true confirm doMove st =
      (Choice3Outcome.moveCancelled, st) := by
  simp [choice_3, h]

/-- Witness for C8: answering "no" on a `Nat` state with a move that would
change the state. -/
theorem choice3_dir_cancel_frame_witness :
    ¬ pyLower "no" = "yes" ∧
    choice_3 true true "no" (fun s : Nat => (s + 1, true)) 0 =
      (Choice3Outcome.moveCancelled, 0) :=
  ⟨by decide,
   choice3_dir_cancel_frame 0 (fun s => (s + 1, true)) "no" (by decide)⟩

/-- Counterexample to C5 as stated: the code removes every occurrence of the
substring `.json`, not only a `.json` suffix.  On the name "a.jsonb" the code
stores "ab.json", while the claim's described transformation (strip a `.json`
suffix, then embedded dots) yields "ajsonb.json". -/
theorem json_name_not_suffix_strip :
    choice_1_json_name "a.jsonb" = "ab.json" ∧
    json_name_per_claim "a.jsonb" = "ajsonb.json" ∧
    ¬ choice_1_json_name "a.jsonb" = json_name_per_claim "a.jsonb" :=
  ⟨by decide, by decide, by decide⟩

/-- Helper for C5: removing dots really leaves no dot. -/
theorem stripDots_count (l : List Char) : (stripDots l).count '.' = 0 := by
  simp [stripDots, List.count_eq_zero, List.mem_filter]

/-- C5 as amended: for every answer, the stored filename is obtained by
removing every occurrence of the substring `.json` and then every remaining
dot before appending `.json` (an empty stripped answer yields
`dataStore.json`); consequently the result always ends in ".json" and
contains exactly one dot. -/
theorem json_name_amended (raw : String) :
    choice_1_json_name raw =
      (if pyStrip raw = "" then "dataStore.json"
       else String.mk (stripDots (stripJsonExt (pyStrip raw).toList)) ++ ".json") ∧
    List.IsSuffix ".json".toList (choice_1_json_name raw).toList ∧
    (choice_1_json_name raw).toList.count '.' = 1 := by
  by_cases h : pyStrip raw = ""
  · refine ⟨by simp [choice_1_json_name, h], ?_, ?_⟩ <;>
      · simp only [choice_1_json_name, h, if_pos]
        decide
  · refine ⟨by simp [choice_1_json_name, h], ?_, ?_⟩ <;>
      simp only [choice_1_json_name, h, if_neg, ite_false]
    · exact ⟨(String.mk (stripDots (stripJsonExt (pyStrip raw).toList))).toList,
        by simp [String.toList, String.data_append]⟩
    · simp [String.toList, String.data_append, List.count_append, stripDots_count]

/-- Criteria with only the directories-only flag set, used for C1 (a plain
file entry then never matches). -/
def dirOnlyCriteria : FilterCriteria :=
  { FilterCriteria.init with only_dirs := true }

/-- Counterexample to C1 as stated: it is true that `collect_files`
distinguishes absence (`none`) from an empty result (`some []`), and
`choice_1` preserves the distinction, but the filtered-delete branch of
`choice_4` does not: its guard `if not data or len(data) == 0` sends a
listing-error absence and a filters-excluded-everything empty result to the
very same "No files match filters. Nothing to delete." outcome. -/
theorem choice4_conflates_absence_and_empty :
    collect_files (.directory none) (some dirOnlyCriteria) 0 = none ∧
    collect_files (.directory (some [⟨"a.txt", false, some 10, some 0⟩]))
      (some dirOnlyCriteria) 0 = some [] ∧
    choice_4_filtered (.directory none) dirOnlyCriteria 0 "yes"
        (fun _ => true) (fun _ => true) =
      choice_4_filtered (.directory (some [⟨"a.txt", false, some 10, some 0⟩]))
        dirOnlyCriteria 0 "yes" (fun _ => true) (fun _ => true) ∧
    choice_4_filtered (.directory none) dirOnlyCriteria 0 "yes"
        (fun _ => true) (fun _ => true) = Choice4Outcome.noMatch :=
  ⟨by decide, by decide, by decide, by decide⟩

/-- C1 as amended: `collect_files` returns `none` when the path is absent, a
plain file, or the listing fails (outside tree mode), and `some []` when the
directory lists but every entry is excluded by the filters; `choice_1`
distinguishes the two results (silent return versus the "No files collected"
message), but the filtered-delete branch of `choice_4` treats them
identically (its no-match guard accepts both). -/
theorem collect_absence_vs_empty (c : FilterCriteria) (now : Int)
    (entries : List Entry) (hTree : c.show_tree = false)
    (hAll : entries.all (fun e => !(passes (some c) now e)) = true) :
    collect_files .absent (some c) now = none ∧
    collect_files .plainFile (some c) now = none ∧
    collect_files (.directory none) (some c) now = none ∧
    collect_files (.directory (some entries)) (some c) now = some [] ∧
    ¬ choice_1_dispatch none = choice_1_dispatch (some []) ∧
    choice_4_no_match none = true ∧ choice_4_no_match (some []) = true := by
  refine ⟨rfl, rfl, by simp [collect_files, hTree], ?_, by decide, rfl, rfl⟩
  have hfil : entries.filter (passes (some c) now) = [] := by
    rw [List.filter_eq_nil_iff]
    intro a ha
    have := List.all_eq_true.mp hAll a ha
    simpa using this
  simp [collect_files, hTree, hfil]

/-- Witness for C1 (amended) at a concrete criteria and listing. -/
theorem collect_absence_vs_empty_witness :
    collect_files .absent (some dirOnlyCriteria) 0 = none ∧
    collect_files .plainFile (some dirOnlyCriteria) 0 = none ∧
    collect_files (.directory none) (some dirOnlyCriteria) 0 = none ∧
    collect_files (.directory (some [⟨"b.txt", false, some 10, some 0⟩]))
      (some dirOnlyCriteria) 0 = some [] ∧
    ¬ choice_1_dispatch none = choice_1_dispatch (some []) ∧
    choice_4_no_match none = true ∧ choice_4_no_match (some []) = true :=
  collect_absence_vs_empty dirOnlyCriteria 0
    [⟨"b.txt", false, some 10, some 0⟩] rfl (by decide)

/-- Helper for C7: the deletion loop removes exactly the names that are files
and whose removal succeeds (in order), reports exactly the file names whose
removal fails, and counts the removals. -/
theorem delete_loop_eq (isFileAt removeOk : String → Bool) (ns : List String) :
    choice_4_delete_loop isFileAt removeOk ns =
      ((ns.filter (fun n => isFileAt n && removeOk n)).length,
       ns.filter (fun n => isFileAt n && removeOk n),
       ns.filter (fun n => isFileAt n && !(removeOk n))) := by
  induction ns with
  | nil => rfl
  | cons n rest ih =>
    cases hf : isFileAt n <;> cases hr : removeOk n <;>
      simp [choice_4_delete_loop, hf, hr, ih]

/-- Helper for C7: the `"Name"` fields of the collected records are the
matched entry names, in listing order. -/
theorem collect_names (entries : List Entry) (c : FilterCriteria) (now : Int) :
    ((entries.filter (passes (some c) now)).map entry_record).map
        (fun d => d.Name) = matched_names entries c now := by
  simp [matched_names, List.map_map]
  intros
  rfl

/-- C7: on an existing directory with an active filter and a confirmed
deletion, `choice_4` removes exactly the matched names that are files and
whose removal succeeds (matched directories are never removed), failures are
reported without aborting the batch, and the closing report counts the
successful removals out of the number of matched entries. -/
theorem choice4_filtered_delete_spec (entries : List Entry)
    (c : FilterCriteria) (now : Int) (confirm : String)
    (isFileAt removeOk : String → Bool)
    (hTree : c.show_tree = false)
    (hYes : pyLower confirm = "yes")
    (hSome : ¬ matched_names entries c now = []) :
    choice_4_filtered (.directory (some entries)) c now confirm
        isFileAt removeOk =
      Choice4Outcome.deleted
        { listed := matched_names entries c now
          deletedCount := ((matched_names entries c now).filter
            (fun n => isFileAt n && removeOk n)).length
          total := (matched_names entries c now).length
          removed := (matched_names entries c now).filter
            (fun n => isFileAt n && removeOk n)
          failed := (matched_names entries c now).filter
            (fun n => isFileAt n && !(removeOk n)) } := by
  have hdata : collect_files (.directory (some entries)) (some c) now =
      some ((entries.filter (passes (some c) now)).map entry_record) := by
    simp [collect_files, hTree]
  have hlen : ((entries.filter (passes (some c) now)).map entry_record).length =
      (matched_names entries c now).length := by
    simp [matched_names]
  have hne' : ¬ (matched_names entries c now).length = 0 := by
    simpa [List.length_eq_zero] using hSome
  have hne : ¬ ((entries.filter (passes (some c) now)).map entry_record).length = 0 := by
    rw [hlen]
    exact hne'
  simp only [choice_4_filtered, hdata, choice_4_no_match, decide_eq_true_eq,
    if_neg hne, hYes, if_pos, collect_names, delete_loop_eq, hlen, if_neg hne']

/-- Criteria with only the jar-only flag set, used by the C7 witness. -/
def jarOnlyCriteria : FilterCriteria :=
  { FilterCriteria.init with only_jar := true }

/-- Witness for C7: a directory holding exactly one matching file and one
non-matching file; exactly the matching file is removed and the report is
1 of 1. -/
theorem choice4_filtered_delete_spec_witness :
    choice_4_filtered
        (.directory (some [⟨"match.jar", false, some 10, some 0⟩,
          ⟨"other.txt", false, some 10, some 0⟩]))
        jarOnlyCriteria 0 "yes" (fun _ => true) (fun _ => true) =
      Choice4Outcome.deleted
        { listed := ["match.jar"]
          deletedCount := 1
          total := 1
          removed := ["match.jar"]
          failed := [] } := by
  have h := choice4_filtered_delete_spec
    [⟨"match.jar", false, some 10, some 0⟩, ⟨"other.txt", false, some 10, some 0⟩]
    jarOnlyCriteria 0 "yes" (fun _ => true) (fun _ => true)
    rfl (by decide) (by decide)
  exact h.trans (by decide)

end ArborAI
